import Mathlib

/-!
Verification development for `automated_export.py` (PCM_CDB_CSV).

The file embeds the three core components of the script — the table
extractor `xml_to_df`, the age deriver `calculate_age`, and the cyclist/team
joiner `cyclist_and_team_data` — as executable Lean definitions, and proves
the specification's claims about them.

Python-side conventions used by the embedding:
* XML cell values and attribute values are `Option String` (ElementTree's
  `.text` / `.get` return a string or `None`).
* DataFrame cells are `Option PyVal`: a cell is `None`, a string from the
  XML, or an integer (the derived `age` column stores Python ints).
* Fallible code (uncaught `ValueError` / `KeyError` / pandas errors) is
  modelled with `Except Err`.
* `datetime.now()` is modelled by passing the current date explicitly.
-/

namespace PCM

/-- A non-null Python value held in a DataFrame cell: the source pipeline
only ever stores strings (XML text) and ints (the computed age). -/
inductive PyVal where
  | str (s : String)
  | int (n : Int)
deriving DecidableEq, Repr

/-- A DataFrame cell: `none` models Python `None`/`NaN`. -/
abbrev Cell := Option PyVal

/-- The current date, as observed by `datetime.now()` at call time. -/
structure Date where
  year : Nat
  month : Nat
  day : Nat
deriving DecidableEq, Repr

/-- Numeric value of a digit character (`'0'` ↦ 0, …, `'9'` ↦ 9). -/
def charVal (c : Char) : Nat := c.toNat - 48

/-- ASCII whitespace stripped by Python `int(str)` before parsing. -/
def isPyWs (c : Char) : Bool :=
  c == ' ' || c == '\t' || c == '\n' || c == '\r' ||
    c == Char.ofNat 11 || c == Char.ofNat 12

/-- Strip leading and trailing whitespace, as Python `int(str)` does. -/
def stripWs (cs : List Char) : List Char :=
  ((cs.dropWhile isPyWs).reverse.dropWhile isPyWs).reverse

/-- Digit-run parser for Python `int(str)`: after an initial digit
(already consumed into `acc`), digits may continue, with single
underscores allowed between digits (Python's `1_000` syntax); a trailing
or doubled underscore is an error. -/
def goDigits (acc : Nat) : List Char → Option Nat
  | [] => some acc
  | c :: cs =>
    if c = '_' then
      match cs with
      | [] => none
      | c2 :: cs2 => if c2.isDigit then goDigits (acc * 10 + charVal c2) cs2 else none
    else if c.isDigit then goDigits (acc * 10 + charVal c) cs else none

/-- Python `int(s)` on a string: strip whitespace, optional sign, then a
digit run; any other shape raises `ValueError`, modelled as `none`.
(The model covers ASCII strings, which is all the pipeline produces.) -/
def pyParseInt (s : String) : Option Int :=
  match stripWs s.data with
  | [] => none
  | c :: cs =>
    if c = '-' then
      match cs with
      | [] => none
      | c2 :: cs2 =>
        if c2.isDigit then (goDigits (charVal c2) cs2).map (fun v => -(v : Int)) else none
    else if c = '+' then
      match cs with
      | [] => none
      | c2 :: cs2 =>
        if c2.isDigit then (goDigits (charVal c2) cs2).map (fun v => (v : Int)) else none
    else if c.isDigit then (goDigits (charVal c) cs).map (fun v => (v : Int))
    else none

/-- Little-endian decimal digits of `n`, with explicit fuel (the fuel is
only there to make the recursion structural; `fuel ≥ n` suffices, see
`digitsRevAux_eq_digits`). -/
def digitsRevAux : Nat → Nat → List Nat
  | 0, _ => []
  | fuel + 1, n => if n = 0 then [] else n % 10 :: digitsRevAux fuel (n / 10)

/-- Python `str(n)` for a natural number: minimal decimal representation. -/
def pyStrNat (n : Nat) : String :=
  if n = 0 then "0" else ⟨(digitsRevAux n n).reverse.map Nat.digitChar⟩

/-- Python `str(i)` for an int: minimal decimal form with `-` sign. -/
def pyStr (i : Int) : String :=
  if i < 0 then "-" ++ pyStrNat i.natAbs else pyStrNat i.natAbs

/-- Two-character month match of CPython `strptime`'s `%m` regex
`1[0-2]|0[1-9]` (its two-digit alternatives, tried before the
one-digit one). -/
def monthTwo (a b : Char) : Option Nat :=
  if a = '1' ∧ '0' ≤ b ∧ b ≤ '2' then some (10 + charVal b)
  else if a = '0' ∧ '1' ≤ b ∧ b ≤ '9' then some (charVal b)
  else none

/-- One-character month match of `%m`'s final alternative `[1-9]`. -/
def monthOne (a : Char) : Option Nat :=
  if '1' ≤ a ∧ a ≤ '9' then some (charVal a) else none

/-- Two-character day match of `%d`'s regex `3[01]|[12]\d|0[1-9]`
(its two-digit alternatives, tried before the one-digit one). -/
def dayTwo (a b : Char) : Option Nat :=
  if a = '3' ∧ '0' ≤ b ∧ b ≤ '1' then some (30 + charVal b)
  else if ('1' ≤ a ∧ a ≤ '2') ∧ b.isDigit then some (charVal a * 10 + charVal b)
  else if a = '0' ∧ '1' ≤ b ∧ b ≤ '9' then some (charVal b)
  else none

/-- One-character day match of `%d`'s final alternative `[1-9]`. -/
def dayOne (a : Char) : Option Nat :=
  if '1' ≤ a ∧ a ≤ '9' then some (charVal a) else none

/-- Match the remainder of the format string `%m%d` against the
characters following the four `%Y` digits, with the regex-engine
backtracking CPython's `_strptime` uses: month alternatives are tried in
order (two-digit before one-digit), the day must consume the entire rest
of the string, and on failure the engine backtracks to the next month
alternative.  Month and day each consume one or two characters, so only
remainders of length 2, 3 or 4 can match. -/
def matchMD : List Char → Option (Nat × Nat)
  | [a, b] =>
    -- a two-digit month would leave nothing for the day, so only 1+1 fits
    (monthOne a).bind (fun m => (dayOne b).map (fun d => (m, d)))
  | [a, b, c] =>
    -- 2+1 is tried first; on failure the engine backtracks to 1+2
    match monthTwo a b, dayOne c with
    | some m, some d => some (m, d)
    | _, _ => (monthOne a).bind (fun m => (dayTwo b c).map (fun d => (m, d)))
  | [a, b, c, d] =>
    -- only 2+2 consumes all four characters
    (monthTwo a b).bind (fun m => (dayTwo c d).map (fun dd => (m, dd)))
  | _ => none

/-- Gregorian leap-year rule, as used by Python `datetime`. -/
def isLeap (y : Nat) : Bool :=
  decide (y % 4 = 0 ∧ (¬ y % 100 = 0 ∨ y % 400 = 0))

/-- Days in a month, as validated by Python `datetime`. -/
def daysInMonth (y m : Nat) : Nat :=
  if m = 2 then (if isLeap y then 29 else 28)
  else if m = 4 ∨ m = 6 ∨ m = 9 ∨ m = 11 then 30
  else 31

/-- CPython `datetime.strptime(s, "%Y%m%d")`: `%Y` matches exactly four
digits, then `%m%d` must consume the rest of the string (`matchMD`), and
the resulting numbers must form a valid `datetime` (year ≥ 1, day within
the month); failure raises `ValueError`, modelled as `none`. -/
def strptimeYmd (s : String) : Option (Nat × Nat × Nat) :=
  match s.data with
  | c1 :: c2 :: c3 :: c4 :: rest =>
    if c1.isDigit ∧ c2.isDigit ∧ c3.isDigit ∧ c4.isDigit then
      let y := charVal c1 * 1000 + charVal c2 * 100 + charVal c3 * 10 + charVal c4
      match matchMD rest with
      | some (m, d) =>
        if 1 ≤ y ∧ 1 ≤ d ∧ d ≤ daysInMonth y m then some (y, m, d) else none
      | none => none
    else none
  | _ => none

/-- `calculate_age` from `automated_export.py`: `pd.isna` check, then
`datetime.strptime(str(int(birthdate)), "%Y%m%d")`, then the
"birthday not yet reached this year" formula; `ValueError`/`TypeError`
are caught and give `None`. -/
def calculate_age (v : Cell) (today : Date) : Option Int :=
  match v with
  | none => none
  | some pv =>
    let nOpt : Option Int :=
      match pv with
      | .str s => pyParseInt s
      | .int n => some n
    match nOpt with
    | none => none
    | some n =>
      match strptimeYmd (pyStr n) with
      | none => none
      | some (y, m, d) =>
        some ((today.year : Int) - (y : Int) -
          (if today.month < m ∨ (today.month = m ∧ today.day < d) then 1 else 0))

/-- The 8-character `YYYYMMDD` encoding of a date: four year digits,
two month digits, two day digits (all zero-padded). -/
def dateString (y m d : Nat) : String :=
  ⟨[Nat.digitChar (y / 1000), Nat.digitChar (y / 100 % 10), Nat.digitChar (y / 10 % 10),
    Nat.digitChar (y % 10), Nat.digitChar (m / 10), Nat.digitChar (m % 10),
    Nat.digitChar (d / 10), Nat.digitChar (d % 10)]⟩

mutual
/-- An `xml.etree.ElementTree` element: tag, attributes, text content,
child elements (in document order).  The child sequence is the mutually
defined `ElemList` (kept isomorphic to `List Element` via
`ElemList.ofList`/`ElemList.toList`) so that document traversal is
structurally recursive. -/
inductive Element where
  | mk (tag : String) (attrs : List (String × String)) (text : Option String)
      (children : ElemList)

/-- A sequence of sibling elements, in document order. -/
inductive ElemList where
  | nil
  | cons (e : Element) (es : ElemList)
end

/-- Convert an `ElemList` to an ordinary list. -/
def ElemList.toList : ElemList → List Element
  | .nil => []
  | .cons e es => e :: es.toList

/-- Build an `ElemList` from an ordinary list. -/
def ElemList.ofList : List Element → ElemList
  | [] => .nil
  | e :: es => .cons e (ElemList.ofList es)

/-- Convenient element constructor taking the children as a list. -/
def el (tag : String) (attrs : List (String × String)) (text : Option String)
    (children : List Element) : Element :=
  .mk tag attrs text (ElemList.ofList children)

/-- Tag of an element. -/
def Element.tag : Element → String
  | .mk t _ _ _ => t

/-- Attribute list of an element. -/
def Element.attrs : Element → List (String × String)
  | .mk _ a _ _ => a

/-- Text content of an element (`None` when absent). -/
def Element.text : Element → Option String
  | .mk _ _ x _ => x

/-- Child elements, in document order, as a list. -/
def Element.children : Element → List Element
  | .mk _ _ _ c => c.toList

/-- ElementTree's `el.get(k)`: the attribute value, or `None`. -/
def Element.get (e : Element) (k : String) : Option String :=
  List.lookup k e.attrs

mutual
/-- Preorder (document-order) traversal: the element, then its subtree. -/
def Element.preorder : Element → List Element
  | .mk t a x cs => .mk t a x cs :: ElemList.preorderAll cs

/-- Concatenated preorder traversals of a sibling sequence. -/
def ElemList.preorderAll : ElemList → List Element
  | .nil => []
  | .cons e es => e.preorder ++ ElemList.preorderAll es
end

/-- All proper descendants of `root` in document order: the node set
searched by ElementTree's `root.findall(".//…")` (the root itself is
not among them). -/
def descendants (root : Element) : List Element :=
  match root with
  | .mk _ _ _ cs => ElemList.preorderAll cs

/-- Descendant `Table` elements in document order:
`root.findall(".//Table")`. -/
def tables (root : Element) : List Element :=
  (descendants root).filter (fun e => e.tag == "Table")

/-- Errors raised by the extractor and joiner (all uncaught Python
exceptions of the per-file conversion):
`tableNotFound` / `noDataTable` are the two `ValueError`s of `xml_to_df`;
`badNumRows` is the uncaught `ValueError` from `int(num_rows)` on a
non-numeric `NumRows`; `missingColumn` is the pandas `KeyError` from
`teams_df[team_cols]`; `joinKeyError` is the pandas error when a merge
key is missing or not unique; `birthdateAmbiguous` is the pandas error
when `full_db['gene_i_birthdate']` selects several columns. -/
inductive Err where
  | tableNotFound
  | noDataTable
  | badNumRows
  | missingColumn
  | joinKeyError
  | birthdateAmbiguous
deriving DecidableEq, Repr

/-- A pandas DataFrame over object cells: ordered column labels
(duplicates permitted) and rows of positionally aligned cells. -/
structure Df where
  columns : List String
  rows : List (List Cell)
deriving DecidableEq, Repr

/-- Does this table satisfy the loop condition
`num_rows and int(num_rows) > 0` (ignoring how `int` can raise)? -/
def numRowsPositive (t : Element) : Bool :=
  match t.get "NumRows" with
  | none => false
  | some s =>
    if s = "" then false
    else match pyParseInt s with
      | some k => decide (0 < k)
      | none => false

/-- Does this table's `NumRows` attribute avoid the uncaught
`ValueError` of `int(num_rows)`: absent, empty, or parseable? -/
def numRowsOk (t : Element) : Bool :=
  match t.get "NumRows" with
  | none => true
  | some s => if s = "" then true else (pyParseInt s).isSome

/-- The `for t in root.findall('.//Table')` loop of `xml_to_df` when no
table name is given: skip tables whose `NumRows` is absent or `""`
(falsy), raise `ValueError` when `int(num_rows)` fails to parse, stop at
the first table with `int(num_rows) > 0`, and raise the
"No table with data found" `ValueError` when the loop finishes
without a hit. -/
def firstWithData : List Element → Except Err Element
  | [] => .error .noDataTable
  | t :: ts =>
    match t.get "NumRows" with
    | none => firstWithData ts
    | some s =>
      if s = "" then firstWithData ts
      else match pyParseInt s with
        | none => .error .badNumRows
        | some k => if 0 < k then .ok t else firstWithData ts

/-- Predicate of `root.find(f".//Table[@TableName='{n}']")`: a `Table`
descendant whose `TableName` attribute equals `n`. -/
def isNamedTable (n : String) (e : Element) : Bool :=
  e.get "TableName" == some n

/-- Table selection of `xml_to_df`: by name (first document-order match,
else `TableNotFound`), or first table with data (else `NoDataTable`). -/
def selectTable (root : Element) (tname : Option String) : Except Err Element :=
  match tname with
  | some n =>
    match (tables root).find? (isNamedTable n) with
    | some t => .ok t
    | none => .error .tableNotFound
  | none => firstWithData (tables root)

/-- Column extraction of `xml_to_df`: direct `Column` children in
document order; a column with no `ColumnName` attribute (or an empty
one — both falsy) is skipped; each retained column carries its direct
`Cell` children's text values in order (`None` for empty cells). -/
def extractCols (t : Element) : List (String × List Cell) :=
  (t.children.filter (fun c => c.tag == "Column")).filterMap (fun col =>
    match col.get "ColumnName" with
    | none => none
    | some nm =>
      if nm = "" then none
      else some (nm,
        (col.children.filter (fun c => c.tag == "Cell")).map
          (fun c => c.text.map PyVal.str)))

/-- `max(len(col_data) for col_data in data)` (0 on the empty list,
which `xml_to_df` never reaches). -/
def maxLen (cs : List (String × List Cell)) : Nat :=
  cs.foldl (fun a c => max a c.2.length) 0

/-- The padding-and-transposition step of `xml_to_df`: right-pad every
column's cells with `None` to the maximum length, then transpose
(`zip(*padded_data)`); with no retained columns the result is the empty
`pd.DataFrame()`.  Since every padded column has length exactly
`maxLen cs`, row `i` of the transposition is the list of the padded
columns' `i`-th entries, for `i < maxLen cs`. -/
def buildDf (cs : List (String × List Cell)) : Df :=
  if cs.isEmpty then ⟨[], []⟩
  else
    let L := maxLen cs
    let padded := cs.map (fun c => c.2 ++ List.replicate (L - c.2.length) (none : Cell))
    ⟨cs.map Prod.fst, (List.range L).map (fun i => padded.map (fun col => col.getD i none))⟩

/-- `xml_to_df(file_path, table_name)`: select the table, then extract,
pad and transpose its columns. -/
def xml_to_df (root : Element) (tname : Option String) : Except Err Df :=
  match selectTable root tname with
  | .error e => .error e
  | .ok t => .ok (buildDf (extractCols t))

/-- Positions (ascending) at which label `n` occurs in a column list. -/
def colOccurrences (cols : List String) (n : String) : List Nat :=
  match cols with
  | [] => []
  | c :: cs =>
    if c = n then 0 :: (colOccurrences cs n).map (· + 1)
    else (colOccurrences cs n).map (· + 1)

/-- Pandas `df[names]`: `KeyError` if any requested label is absent;
otherwise, for each requested label in order, all columns bearing it. -/
def selectCols (df : Df) (names : List String) : Except Err Df :=
  if names.all (fun n => df.columns.contains n) then
    let idxs := names.flatMap (fun n => colOccurrences df.columns n)
    .ok ⟨idxs.map (fun j => df.columns.getD j ""),
         df.rows.map (fun r => idxs.map (fun j => r.getD j none))⟩
  else .error .missingColumn

/-- The team-column selection of `cyclist_and_team_data`: `IDteam`
unconditionally, then `gene_sz_shortname` and `gene_sz_name` only when
present in the team table's columns. -/
def selectTeamCols (teams : Df) : Except Err Df :=
  selectCols teams
    (["IDteam"] ++
      (if teams.columns.contains "gene_sz_shortname" then ["gene_sz_shortname"] else []) ++
      (if teams.columns.contains "gene_sz_name" then ["gene_sz_name"] else []))

/-- Index of a merge key: pandas requires the label to occur exactly
once (`KeyError` when missing, `MergeError` when duplicated). -/
def colIndexUnique (cols : List String) (n : String) : Option Nat :=
  match colOccurrences cols n with
  | [j] => some j
  | _ => none

/-- Pandas merge suffixing, left side: labels also present on the right
get the `_x` suffix. -/
def suffixLeft (lcols rcols : List String) : List String :=
  lcols.map (fun c => if rcols.contains c then c ++ "_x" else c)

/-- Pandas merge suffixing, right side: labels also present on the left
get the `_y` suffix. -/
def suffixRight (lcols rcols : List String) : List String :=
  rcols.map (fun c => if lcols.contains c then c ++ "_y" else c)

/-- The matching team rows for one cyclist row: rows of `right` whose
key cell (`ri`) equals the cyclist row's key cell (`li`).  Pandas value
equality on object keys matches `NaN`/`None` with `NaN`/`None`. -/
def matchingRows (right : Df) (ri li : Nat) (lr : List Cell) : List (List Cell) :=
  right.rows.filter (fun rr => rr.getD ri none == lr.getD li none)

/-- The output rows contributed by a single left row: one row per
matching right row (in right order), or a single `None`-padded row when
nothing matches. -/
def joinRow (right : Df) (ri li : Nat) (lr : List Cell) : List (List Cell) :=
  match matchingRows right ri li lr with
  | [] => [lr ++ List.replicate right.columns.length (none : Cell)]
  | ms => ms.map (fun rr => lr ++ rr)

/-- `left.merge(right, left_on=lk, right_on=rk, how='left')`: output
columns are the suffixed left columns followed by the suffixed right
columns; each left row, in order, contributes its `joinRow` block. -/
def mergeLeft (left right : Df) (lk rk : String) : Except Err Df :=
  match colIndexUnique left.columns lk, colIndexUnique right.columns rk with
  | some li, some ri =>
    .ok ⟨suffixLeft left.columns right.columns ++ suffixRight left.columns right.columns,
      left.rows.flatMap (joinRow right ri li)⟩
  | _, _ => .error .joinKeyError

/-- Pandas `df[n] = vals`: when label `n` exists, every column bearing it
is overwritten in place; otherwise a new column is appended at the end. -/
def assignColumn (df : Df) (n : String) (vals : List Cell) : Df :=
  if df.columns.contains n then
    ⟨df.columns,
      (df.rows.zip vals).map (fun rv =>
        (List.range rv.1.length).map
          (fun j => if df.columns.getD j "" = n then rv.2 else rv.1.getD j none))⟩
  else ⟨df.columns ++ [n], (df.rows.zip vals).map (fun rv => rv.1 ++ [rv.2])⟩

/-- The age step of `cyclist_and_team_data`: when exactly one
`gene_i_birthdate` column exists, apply `calculate_age` to it and assign
the result to label `age`; with no such column the frame is unchanged;
with several, `full_db['gene_i_birthdate']` yields a DataFrame and the
`apply`/assignment raises. -/
def addAge (today : Date) (df : Df) : Except Err Df :=
  match colOccurrences df.columns "gene_i_birthdate" with
  | [] => .ok df
  | [bj] =>
    .ok (assignColumn df "age"
      (df.rows.map (fun r => (calculate_age (r.getD bj none) today).map PyVal.int)))
  | _ => .error .birthdateAmbiguous

/-- `cyclist_and_team_data(xml_path)`: extract `DYN_cyclist` and
`DYN_team`, select the team columns, left-merge on
`fkIDteam`/`IDteam`, then derive `age`. -/
def cyclist_and_team_data (today : Date) (root : Element) : Except Err Df :=
  match xml_to_df root (some "DYN_cyclist") with
  | .error e => .error e
  | .ok cyclists =>
    match xml_to_df root (some "DYN_team") with
    | .error e => .error e
    | .ok teams =>
      match selectTeamCols teams with
      | .error e => .error e
      | .ok teams2 =>
        match mergeLeft cyclists teams2 "fkIDteam" "IDteam" with
        | .error e => .error e
        | .ok full => addAge today full

/-- First `Table` descendant carrying the given `TableName`. -/
def firstNamedTable (root : Element) (n : String) : Option Element :=
  (tables root).find? (isNamedTable n)

/-- First `Table` descendant whose `NumRows` is a positive integer. -/
def firstDataTable (root : Element) : Option Element :=
  (tables root).find? numRowsPositive

deriving instance DecidableEq for Except

/-- A `Cell` element with the given text. -/
def cellEl (v : Option String) : Element :=
  el "Cell" [] v []

/-- A `Column` element with the given `ColumnName` and cells. -/
def colEl (nm : String) (vs : List (Option String)) : Element :=
  el "Column" [("ColumnName", nm)] none (vs.map cellEl)

/-- A `Table` element with the given `TableName`, `NumRows` and columns. -/
def tableEl (nm : String) (nrows : String) (cols : List Element) : Element :=
  el "Table" [("TableName", nm), ("NumRows", nrows)] none cols

/-- A document root wrapping the given tables. -/
def doc (ts : List Element) : Element :=
  el "Export" [] none ts

/-- A document whose cyclist table has one row with `fkIDteam = "10"`,
and whose team table has two rows sharing `IDteam = "10"`. -/
def docDupTeams : Element :=
  doc
    [tableEl "DYN_cyclist" "1"
      [colEl "IDcyclist" [some "1"],
       colEl "fkIDteam" [some "10"]],
     tableEl "DYN_team" "2"
      [colEl "IDteam" [some "10", some "10"],
       colEl "gene_sz_name" [some "TeamA", some "TeamB"]]]

/-- A document whose single cyclist row has a null `fkIDteam` and whose
single team row has a null `IDteam` (and `gene_sz_name = "TeamA"`). -/
def docNullKeys : Element :=
  doc
    [tableEl "DYN_cyclist" "1"
      [colEl "IDcyclist" [some "1"],
       colEl "fkIDteam" [none]],
     tableEl "DYN_team" "1"
      [colEl "IDteam" [none],
       colEl "gene_sz_name" [some "TeamA"]]]

/-- A document whose first table has the non-numeric `NumRows="abc"` and
whose second table has `NumRows="5"` and a data column. -/
def docBadNumRows : Element :=
  doc
    [tableEl "T1" "abc" [],
     tableEl "T2" "5" [colEl "a" [some "x"]]]

/-- A document whose team table has no `IDteam` column. -/
def docNoIDteam : Element :=
  doc
    [tableEl "DYN_cyclist" "1"
      [colEl "IDcyclist" [some "1"],
       colEl "fkIDteam" [some "10"]],
     tableEl "DYN_team" "1"
      [colEl "gene_sz_name" [some "TeamA"]]]

/-- A document whose cyclist table already contains a column named
`age`, alongside `fkIDteam` and `gene_i_birthdate`. -/
def docAgeColumn : Element :=
  doc
    [tableEl "DYN_cyclist" "1"
      [colEl "fkIDteam" [some "10"],
       colEl "age" [some "x"],
       colEl "gene_i_birthdate" [some "19900101"]],
     tableEl "DYN_team" "1"
      [colEl "IDteam" [some "10"]]]

/-- C1, counterexample: on `docDupTeams` the cyclist table has one row,
but two team rows share the matched `IDteam` value "10", and the
joiner's output has two rows — the left join does not preserve
cardinality when several team rows share an `IDteam`. -/
theorem c1_counterexample :
    (cyclist_and_team_data ⟨2026, 10, 12⟩ docDupTeams).map (fun df => df.rows.length) =
      .ok 2 ∧
    (xml_to_df docDupTeams (some "DYN_cyclist")).map (fun df => df.rows.length) =
      .ok 1 := by decide

/-- C2: evaluating the joiner on `docNullKeys` shows that the source's
pandas merge treats a null `fkIDteam` as matching a null `IDteam`: the
output row for the null-keyed cyclist carries the null-keyed team row's
`gene_sz_name = "TeamA"` instead of the null team fields the
specification requires. -/
theorem c2_null_key_matches_eval :
    cyclist_and_team_data ⟨2026, 10, 12⟩ docNullKeys =
      .ok ⟨["IDcyclist", "fkIDteam", "IDteam", "gene_sz_name"],
        [[some (.str "1"), none, none, some (.str "TeamA")]]⟩ := by decide

/-- C4, counterexample: `docBadNumRows` contains a table whose `NumRows`
parses as a positive integer (`T2`), yet the unnamed extraction neither
selects it nor fails with `NoDataTable`: it raises the uncaught
`ValueError` of `int("abc")` while scanning the earlier table. -/
theorem c4_counterexample :
    xml_to_df docBadNumRows none = .error .badNumRows ∧
    (firstDataTable docBadNumRows).isSome = true := by decide

/-- C7, counterexample: `"09990101"` is an 8-digit `YYYYMMDD` string
encoding the valid calendar date 0999-01-01, so on 2026-10-12 the claim
predicts age `2026 - 999 - 0`; but `str(int(...))` drops the leading
zero and `strptime` reparses `"9990101"` as 9990-10-01, giving `-7964`. -/
theorem c7_counterexample :
    calculate_age (some (.str "09990101")) ⟨2026, 10, 12⟩ = some (-7964) ∧
    calculate_age (some (.str "09990101")) ⟨2026, 10, 12⟩ ≠
      some ((2026 : Int) - 999 - 0) := by decide

/-- C8, counterexample: on `docNoIDteam` the team table merely lacks the
`IDteam` column, yet the joiner raises the pandas `KeyError` of
`teams_df[team_cols]` instead of omitting the column. -/
theorem c8_counterexample :
    cyclist_and_team_data ⟨2026, 10, 12⟩ docNoIDteam = .error .missingColumn := by
  decide

/-- C10, counterexample: on `docAgeColumn` the cyclist table already has
an `age` column, so the derived ages overwrite it in place (second
column, value `36`) and the output's last column is `IDteam`, not
`age` as the claim requires. -/
theorem c10_counterexample :
    cyclist_and_team_data ⟨2026, 10, 12⟩ docAgeColumn =
      .ok ⟨["fkIDteam", "age", "gene_i_birthdate", "IDteam"],
        [[some (.str "10"), some (.int 36), some (.str "19900101"),
          some (.str "10")]]⟩ := by decide

/-- C6: `calculate_age` silently maps every malformed input to null: a
null/missing cell, any string rejected by Python `int()` (in particular
the empty string), and any parsed integer whose decimal form is not a
valid `%Y%m%d` calendar date all yield `None`, never an error (the
embedding is a total function, so no exception can escape). -/
theorem c6_age_total_null (today : Date) :
    calculate_age none today = none ∧
    (∀ s : String, pyParseInt s = none → calculate_age (some (.str s)) today = none) ∧
    calculate_age (some (.str "")) today = none ∧
    (∀ (s : String) (n : Int), pyParseInt s = some n → strptimeYmd (pyStr n) = none →
      calculate_age (some (.str s)) today = none) := by
  refine ⟨rfl, fun s h => ?_, ?_, fun s n h1 h2 => ?_⟩
  · simp [calculate_age, h]
  · simp [calculate_age, show pyParseInt "" = none from by decide]
  · simp [calculate_age, h1, h2]

/-- Witness for C6 at concrete malformed inputs: a non-numeric string,
the empty string, and the non-date 1990-02-30. -/
theorem c6_age_total_null_witness :
    calculate_age (some (.str "abc")) ⟨2026, 10, 12⟩ = none ∧
    calculate_age (some (.str "")) ⟨2026, 10, 12⟩ = none ∧
    calculate_age (some (.str "19900230")) ⟨2026, 10, 12⟩ = none :=
  ⟨(c6_age_total_null ⟨2026, 10, 12⟩).2.1 "abc" (by decide),
   (c6_age_total_null ⟨2026, 10, 12⟩).2.2.1,
   (c6_age_total_null ⟨2026, 10, 12⟩).2.2.2 "19900230" 19900230 (by decide) (by decide)⟩

lemma le_foldl_max (cs : List (String × List Cell)) (a : Nat) :
    a ≤ cs.foldl (fun x c => max x c.2.length) a := by
  induction cs generalizing a with
  | nil => exact le_refl a
  | cons c cs ih => exact le_trans (le_max_left a c.2.length) (ih _)

lemma length_le_maxLen (cs : List (String × List Cell)) :
    ∀ c ∈ cs, c.2.length ≤ maxLen cs := by
  unfold maxLen
  generalize 0 = a
  induction cs generalizing a with
  | nil => intro c hc; cases hc
  | cons c0 cs ih =>
    intro c hc
    rw [List.mem_cons] at hc
    rcases hc with rfl | hc
    · exact le_trans (le_max_right a c.2.length) (le_foldl_max cs _)
    · exact ih _ c hc

/-- Core shape of `buildDf` on a nonempty column list: the columns are
the retained names, there are `maxLen` rows, every row has one value
per retained column, and row `i` maps column `j` to that column's
`i`-th cell when it exists and to the null padding otherwise. -/
lemma buildDf_spec (cs : List (String × List Cell)) (hne : cs ≠ []) :
    (buildDf cs).columns = cs.map Prod.fst ∧
    (buildDf cs).rows.length = maxLen cs ∧
    ∀ i < maxLen cs,
      ((buildDf cs).rows.getD i []).length = cs.length ∧
      ∀ j < cs.length,
        ((buildDf cs).rows.getD i []).getD j none =
          (if i < (cs.getD j ("", [])).2.length
           then (cs.getD j ("", [])).2.getD i none
           else none) := by
  have hne' : cs.isEmpty = false := by
    cases cs with
    | nil => exact absurd rfl hne
    | cons c cs => rfl
  have hb : buildDf cs =
      ⟨cs.map Prod.fst,
        (List.range (maxLen cs)).map (fun i =>
          (cs.map (fun c => c.2 ++ List.replicate (maxLen cs - c.2.length) (none : Cell))).map
            (fun col => col.getD i none))⟩ := by
    simp [buildDf, hne']
  rw [hb]
  refine ⟨rfl, by simp, ?_⟩
  intro i hi
  have hrow : ((List.range (maxLen cs)).map
      (fun i => (cs.map (fun c => c.2 ++ List.replicate (maxLen cs - c.2.length) (none : Cell))).map
        (fun col => col.getD i none))).getD i [] =
      (cs.map (fun c => c.2 ++ List.replicate (maxLen cs - c.2.length) (none : Cell))).map
        (fun col => col.getD i none) := by
    rw [List.getD_eq_getElem?_getD, List.getElem?_map, List.getElem?_range hi]
    rfl
  simp only [hrow]
  constructor
  · simp
  · intro j hj
    have hj' : j < cs.length := hj
    have hcs : cs.getD j ("", []) = cs[j] := by
      simp [List.getD_eq_getElem?_getD, List.getElem?_eq_getElem hj']
    have hval : ((cs.map (fun c => c.2 ++ List.replicate (maxLen cs - c.2.length) (none : Cell))).map
        (fun col => col.getD i none)).getD j none =
        (cs[j].2 ++ List.replicate (maxLen cs - cs[j].2.length) (none : Cell)).getD i none := by
      rw [List.getD_eq_getElem?_getD, List.getElem?_map, List.getElem?_map,
        List.getElem?_eq_getElem hj']
      rfl
    rw [hval, hcs, List.getD_eq_getElem?_getD, List.getElem?_append]
    by_cases hil : i < cs[j].2.length
    · rw [if_pos hil, if_pos hil, List.getElem?_eq_getElem hil,
        List.getD_eq_getElem?_getD, List.getElem?_eq_getElem hil]
    · rw [if_neg hil, if_neg hil, List.getElem?_replicate]
      by_cases hrep : i - cs[j].2.length < maxLen cs - cs[j].2.length
      · rw [if_pos hrep]; rfl
      · rw [if_neg hrep]; rfl

/-- C3: whenever the extractor succeeds with at least one retained
column, its output is the padded transposition: one row per index below
the maximum cell count, each row exactly as long as the retained column
list, and cell `(i, j)` equal to column `j`'s `i`-th cell when present
and to null padding otherwise. -/
theorem c3_padding_invariant (root : Element) (tn : Option String) (t : Element)
    (hsel : selectTable root tn = .ok t) (hne : extractCols t ≠ []) :
    xml_to_df root tn = .ok (buildDf (extractCols t)) ∧
    (buildDf (extractCols t)).columns = (extractCols t).map Prod.fst ∧
    (buildDf (extractCols t)).rows.length = maxLen (extractCols t) ∧
    ∀ i < maxLen (extractCols t),
      ((buildDf (extractCols t)).rows.getD i []).length = (extractCols t).length ∧
      ∀ j < (extractCols t).length,
        ((buildDf (extractCols t)).rows.getD i []).getD j none =
          (if i < ((extractCols t).getD j ("", [])).2.length
           then ((extractCols t).getD j ("", [])).2.getD i none
           else none) := by
  have h := buildDf_spec (extractCols t) hne
  refine ⟨?_, h.1, h.2.1, h.2.2⟩
  unfold xml_to_df
  rw [hsel]

/-- Witness for C3 on a ragged concrete table (column `a` has two
cells, column `b` has one): the second row has two values, and its
second value is the null padding. -/
theorem c3_padding_invariant_witness :
    xml_to_df (doc [tableEl "T" "2" [colEl "a" [some "1", some "2"], colEl "b" [some "3"]]])
      none =
      .ok (buildDf (extractCols
        (tableEl "T" "2" [colEl "a" [some "1", some "2"], colEl "b" [some "3"]]))) ∧
    ((buildDf (extractCols
        (tableEl "T" "2" [colEl "a" [some "1", some "2"], colEl "b" [some "3"]]))).rows.getD
      1 []).length = 2 ∧
    ((buildDf (extractCols
        (tableEl "T" "2" [colEl "a" [some "1", some "2"], colEl "b" [some "3"]]))).rows.getD
      1 []).getD 1 none = none := by
  have h := c3_padding_invariant
    (doc [tableEl "T" "2" [colEl "a" [some "1", some "2"], colEl "b" [some "3"]]])
    none
    (tableEl "T" "2" [colEl "a" [some "1", some "2"], colEl "b" [some "3"]])
    (by rfl) (by decide)
  refine ⟨h.1, ?_, ?_⟩
  · exact Eq.trans ((h.2.2.2 1 (by decide)).1) (by decide)
  · exact Eq.trans ((h.2.2.2 1 (by decide)).2 1 (by decide)) (by decide)

/-- C5: with a table name supplied, the extractor returns the padded
table built from the first document-order `Table` descendant whose
`TableName` equals the name, it fails with `TableNotFound` exactly when
no such table exists, and the joiner propagates that failure for
`DYN_cyclist` and `DYN_team`. -/
theorem c5_named_selection (today : Date) (root : Element) (n : String) :
    (∀ t, firstNamedTable root n = some t →
      xml_to_df root (some n) = .ok (buildDf (extractCols t))) ∧
    (xml_to_df root (some n) = .error .tableNotFound ↔ firstNamedTable root n = none) ∧
    ((firstNamedTable root "DYN_cyclist" = none ∨ firstNamedTable root "DYN_team" = none) →
      cyclist_and_team_data today root = .error .tableNotFound) := by
  have hsel : ∀ m : String, selectTable root (some m) =
      (match firstNamedTable root m with
       | some t => .ok t
       | none => .error .tableNotFound) := fun m => rfl
  have hx : ∀ m : String, xml_to_df root (some m) =
      (match firstNamedTable root m with
       | some t => .ok (buildDf (extractCols t))
       | none => .error .tableNotFound) := by
    intro m
    unfold xml_to_df
    rw [hsel m]
    cases firstNamedTable root m <;> rfl
  refine ⟨fun t ht => by rw [hx n, ht], ?_, ?_⟩
  · rw [hx n]
    cases hf : firstNamedTable root n with
    | some t =>
      constructor
      · intro h; simp at h
      · intro h; simp at h
    | none => exact ⟨fun _ => rfl, fun _ => rfl⟩
  · intro h
    unfold cyclist_and_team_data
    rcases h with h | h
    · rw [hx "DYN_cyclist", h]
    · rw [hx "DYN_cyclist", hx "DYN_team", h]
      cases firstNamedTable root "DYN_cyclist" <;> rfl

/-- Witness for C5: a document with a cyclist table but no `DYN_team`
table makes the joiner fail with `TableNotFound`, and the cyclist table
itself is found by name. -/
theorem c5_named_selection_witness :
    cyclist_and_team_data ⟨2026, 10, 12⟩
      (doc [tableEl "DYN_cyclist" "1" [colEl "fkIDteam" [some "10"]]]) =
      .error .tableNotFound ∧
    xml_to_df (doc [tableEl "DYN_cyclist" "1" [colEl "fkIDteam" [some "10"]]])
      (some "DYN_cyclist") =
      .ok (buildDf (extractCols (tableEl "DYN_cyclist" "1" [colEl "fkIDteam" [some "10"]]))) :=
  ⟨(c5_named_selection ⟨2026, 10, 12⟩
      (doc [tableEl "DYN_cyclist" "1" [colEl "fkIDteam" [some "10"]]]) "x").2.2
      (Or.inr (by rfl)),
   (c5_named_selection ⟨2026, 10, 12⟩
      (doc [tableEl "DYN_cyclist" "1" [colEl "fkIDteam" [some "10"]]]) "DYN_cyclist").1
      (tableEl "DYN_cyclist" "1" [colEl "fkIDteam" [some "10"]]) (by rfl)⟩

lemma firstWithData_spec (ts : List Element) (h : ∀ t ∈ ts, numRowsOk t = true) :
    (∀ t, ts.find? numRowsPositive = some t → firstWithData ts = .ok t) ∧
    (firstWithData ts = .error .noDataTable ↔ ts.find? numRowsPositive = none) := by
  induction ts with
  | nil =>
    refine ⟨fun t ht => by simp at ht, ⟨fun _ => rfl, fun _ => rfl⟩⟩
  | cons t0 ts ih =>
    have ih' := ih (fun t ht => h t (List.mem_cons_of_mem _ ht))
    have h0 := h t0 (List.mem_cons_self _ _)
    have hfw : firstWithData (t0 :: ts) =
        (match t0.get "NumRows" with
         | none => firstWithData ts
         | some s =>
           if s = "" then firstWithData ts
           else match pyParseInt s with
             | none => .error .badNumRows
             | some k => if 0 < k then .ok t0 else firstWithData ts) := rfl
    cases hnr : t0.get "NumRows" with
    | none =>
      have hp : numRowsPositive t0 = false := by simp [numRowsPositive, hnr]
      have hfw0 : firstWithData (t0 :: ts) = firstWithData ts := by rw [hfw, hnr]
      rw [hfw0, List.find?_cons_of_neg _ (by simp [hp])]
      exact ih'
    | some s =>
      by_cases hs : s = ""
      · have hp : numRowsPositive t0 = false := by simp [numRowsPositive, hnr, hs]
        have hfw0 : firstWithData (t0 :: ts) = firstWithData ts := by
          rw [hfw, hnr]; simp [hs]
        rw [hfw0, List.find?_cons_of_neg _ (by simp [hp])]
        exact ih'
      · have h0' : (pyParseInt s).isSome = true := by
          unfold numRowsOk at h0
          rw [hnr] at h0
          simpa [hs] using h0
        obtain ⟨k, hk⟩ := Option.isSome_iff_exists.mp h0'
        by_cases hkpos : 0 < k
        · have hp : numRowsPositive t0 = true := by
            simp [numRowsPositive, hnr, hs, hk, hkpos]
          have hfw0 : firstWithData (t0 :: ts) = .ok t0 := by
            rw [hfw, hnr]; simp [hs, hk, hkpos]
          rw [hfw0, List.find?_cons_of_pos _ (by simp [hp])]
          refine ⟨fun t ht => ?_, ⟨fun hh => by simp at hh, fun hh => by simp at hh⟩⟩
          · injection ht with ht; rw [ht]
        · have hp : numRowsPositive t0 = false := by
            simp [numRowsPositive, hnr, hs, hk, hkpos]
          have hfw0 : firstWithData (t0 :: ts) = firstWithData ts := by
            rw [hfw, hnr]; simp [hs, hk, hkpos]
          rw [hfw0, List.find?_cons_of_neg _ (by simp [hp])]
          exact ih'

/-- C4 (amended): provided every `NumRows` attribute present in the
document is empty or parses as a Python integer, the unnamed extraction
returns the padded table built from the first document-order `Table`
whose `NumRows` is a positive integer, and fails with `NoDataTable`
exactly when no such table exists.  (Without that proviso the loop
raises the uncaught `int()` `ValueError` instead — see the
counterexample.) -/
theorem c4_unnamed_selection (root : Element) (h : ∀ t ∈ tables root, numRowsOk t = true) :
    (∀ t, firstDataTable root = some t →
      xml_to_df root none = .ok (buildDf (extractCols t))) ∧
    (xml_to_df root none = .error .noDataTable ↔ firstDataTable root = none) := by
  have hfw := firstWithData_spec (tables root) h
  have hsel : selectTable root none = firstWithData (tables root) := rfl
  constructor
  · intro t ht
    unfold xml_to_df
    rw [hsel, hfw.1 t ht]
  · unfold xml_to_df
    rw [hsel]
    cases he : firstWithData (tables root) with
    | error e =>
      constructor
      · intro hh
        injection hh with hh
        exact hfw.2.mp (by rw [he, hh])
      · intro hh
        have h2 := hfw.2.mpr hh
        rw [he] at h2
        injection h2 with h2
        rw [h2]
    | ok t =>
      constructor
      · intro hh; simp at hh
      · intro hh
        have h2 := hfw.2.mpr hh
        rw [he] at h2
        simp at h2

/-- Witness for C4 on the determinism scenario of spec section 8: with
tables carrying `NumRows="0"` and `NumRows="5"`, unnamed selection picks
the latter. -/
theorem c4_unnamed_selection_witness :
    xml_to_df (doc [tableEl "T1" "0" [], tableEl "T2" "5" [colEl "a" [some "x"]]]) none =
      .ok (buildDf (extractCols (tableEl "T2" "5" [colEl "a" [some "x"]]))) :=
  (c4_unnamed_selection
    (doc [tableEl "T1" "0" [], tableEl "T2" "5" [colEl "a" [some "x"]]])
    (by decide)).1
    (tableEl "T2" "5" [colEl "a" [some "x"]]) (by rfl)

lemma colOccurrences_nil_iff (cols : List String) (n : String) :
    colOccurrences cols n = [] ↔ n ∉ cols := by
  induction cols with
  | nil => simp [colOccurrences]
  | cons c cs ih =>
    by_cases hc : c = n
    · simp [colOccurrences, hc]
    · simp [colOccurrences, hc, ih, Ne.symm hc]

lemma colOccurrences_length (cols : List String) (n : String) :
    (colOccurrences cols n).length = cols.count n := by
  induction cols with
  | nil => simp [colOccurrences]
  | cons c cs ih =>
    by_cases hc : c = n
    · simp [colOccurrences, hc, ih, List.count_cons]
    · simp [colOccurrences, hc, ih, List.count_cons]

lemma colOccurrences_getD (cols : List String) (n : String) :
    ∀ j ∈ colOccurrences cols n, cols.getD j "" = n := by
  induction cols with
  | nil => simp [colOccurrences]
  | cons c cs ih =>
    intro j hj
    by_cases hc : c = n
    · rw [colOccurrences, if_pos hc] at hj
      rcases List.mem_cons.mp hj with rfl | hj
      · exact hc
      · obtain ⟨j', hj', rfl⟩ := List.mem_map.mp hj
        simpa using ih j' hj'
    · rw [colOccurrences, if_neg hc] at hj
      obtain ⟨j', hj', rfl⟩ := List.mem_map.mp hj
      simpa using ih j' hj'

lemma count_one_occ (cols : List String) (n : String) (h : cols.count n = 1) :
    ∃ j, colOccurrences cols n = [j] ∧ cols.getD j "" = n := by
  have hlen : (colOccurrences cols n).length = 1 := by rw [colOccurrences_length, h]
  obtain ⟨j, hj⟩ := List.length_eq_one.mp hlen
  exact ⟨j, hj, colOccurrences_getD cols n j (by rw [hj]; exact List.mem_singleton_self j)⟩

/-- C9: when both table extractions succeed but the cyclist table has no
`fkIDteam` column, the joiner raises (the merge's key lookup fails)
rather than producing an output table. -/
theorem c9_missing_fkidteam (today : Date) (root : Element) (cdf tdf : Df)
    (h1 : xml_to_df root (some "DYN_cyclist") = .ok cdf)
    (h2 : xml_to_df root (some "DYN_team") = .ok tdf)
    (h3 : "fkIDteam" ∉ cdf.columns) :
    ∃ e, cyclist_and_team_data today root = .error e := by
  have hstep : cyclist_and_team_data today root =
      (match selectTeamCols tdf with
       | .error e => .error e
       | .ok teams2 =>
         match mergeLeft cdf teams2 "fkIDteam" "IDteam" with
         | .error e => .error e
         | .ok full => addAge today full) := by
    unfold cyclist_and_team_data
    rw [h1, h2]
  rw [hstep]
  cases hsel : selectTeamCols tdf with
  | error e => exact ⟨e, rfl⟩
  | ok teams2 =>
    have hocc : colOccurrences cdf.columns "fkIDteam" = [] :=
      (colOccurrences_nil_iff _ _).mpr h3
    have hmerge : mergeLeft cdf teams2 "fkIDteam" "IDteam" = .error .joinKeyError := by
      unfold mergeLeft colIndexUnique
      rw [hocc]
    exact ⟨.joinKeyError, by simp [hmerge]⟩

/-- Witness for C9: a document whose cyclist table has only an
`IDcyclist` column. -/
theorem c9_missing_fkidteam_witness :
    ∃ e, cyclist_and_team_data ⟨2026, 10, 12⟩
      (doc [tableEl "DYN_cyclist" "1" [colEl "IDcyclist" [some "1"]],
            tableEl "DYN_team" "1" [colEl "IDteam" [some "10"]]]) = .error e :=
  c9_missing_fkidteam ⟨2026, 10, 12⟩
    (doc [tableEl "DYN_cyclist" "1" [colEl "IDcyclist" [some "1"]],
          tableEl "DYN_team" "1" [colEl "IDteam" [some "10"]]])
    ⟨["IDcyclist"], [[some (.str "1")]]⟩
    ⟨["IDteam"], [[some (.str "10")]]⟩
    (by decide) (by decide) (by decide)

lemma selectCols_err (df : Df) (names : List String)
    (h : ∃ n ∈ names, n ∉ df.columns) :
    selectCols df names = .error .missingColumn := by
  unfold selectCols
  have hall : names.all (fun n => df.columns.contains n) = false := by
    obtain ⟨n, hn, hnc⟩ := h
    exact List.all_eq_false.mpr ⟨n, hn, by simpa using hnc⟩
  rw [hall]
  rfl

lemma selectCols_three_ok (teams : Df) (n0 n1 n2 : String)
    (h0 : teams.columns.count n0 = 1) (h1 : teams.columns.count n1 = 1)
    (h2 : teams.columns.count n2 = 1) :
    ∃ df2, selectCols teams [n0, n1, n2] = .ok df2 ∧ df2.columns = [n0, n1, n2] := by
  obtain ⟨j0, hocc0, hget0⟩ := count_one_occ _ _ h0
  obtain ⟨j1, hocc1, hget1⟩ := count_one_occ _ _ h1
  obtain ⟨j2, hocc2, hget2⟩ := count_one_occ _ _ h2
  have hm0 : n0 ∈ teams.columns := List.count_pos_iff.mp (by omega)
  have hm1 : n1 ∈ teams.columns := List.count_pos_iff.mp (by omega)
  have hm2 : n2 ∈ teams.columns := List.count_pos_iff.mp (by omega)
  have hall : ([n0, n1, n2]).all (fun n => teams.columns.contains n) = true := by
    simp [hm0, hm1, hm2]
  refine ⟨_, by unfold selectCols; rw [if_pos hall], ?_⟩
  show (([n0, n1, n2].flatMap (fun n => colOccurrences teams.columns n)).map
    (fun j => teams.columns.getD j "")) = [n0, n1, n2]
  rw [List.flatMap_cons, List.flatMap_cons, List.flatMap_cons, List.flatMap_nil,
    hocc0, hocc1, hocc2]
  simp only [List.cons_append, List.nil_append, List.append_nil, List.map_cons,
    List.map_nil]
  rw [hget0, hget1, hget2]

lemma selectCols_two_ok (teams : Df) (n0 n1 : String)
    (h0 : teams.columns.count n0 = 1) (h1 : teams.columns.count n1 = 1) :
    ∃ df2, selectCols teams [n0, n1] = .ok df2 ∧ df2.columns = [n0, n1] := by
  obtain ⟨j0, hocc0, hget0⟩ := count_one_occ _ _ h0
  obtain ⟨j1, hocc1, hget1⟩ := count_one_occ _ _ h1
  have hm0 : n0 ∈ teams.columns := List.count_pos_iff.mp (by omega)
  have hm1 : n1 ∈ teams.columns := List.count_pos_iff.mp (by omega)
  have hall : ([n0, n1]).all (fun n => teams.columns.contains n) = true := by
    simp [hm0, hm1]
  refine ⟨_, by unfold selectCols; rw [if_pos hall], ?_⟩
  show (([n0, n1].flatMap (fun n => colOccurrences teams.columns n)).map
    (fun j => teams.columns.getD j "")) = [n0, n1]
  rw [List.flatMap_cons, List.flatMap_cons, List.flatMap_nil, hocc0, hocc1]
  simp only [List.cons_append, List.nil_append, List.append_nil, List.map_cons,
    List.map_nil]
  rw [hget0, hget1]

lemma selectCols_one_ok (teams : Df) (n0 : String)
    (h0 : teams.columns.count n0 = 1) :
    ∃ df2, selectCols teams [n0] = .ok df2 ∧ df2.columns = [n0] := by
  obtain ⟨j0, hocc0, hget0⟩ := count_one_occ _ _ h0
  have hm0 : n0 ∈ teams.columns := List.count_pos_iff.mp (by omega)
  have hall : ([n0]).all (fun n => teams.columns.contains n) = true := by simp [hm0]
  refine ⟨_, by unfold selectCols; rw [if_pos hall], ?_⟩
  show (([n0].flatMap (fun n => colOccurrences teams.columns n)).map
    (fun j => teams.columns.getD j "")) = [n0]
  rw [List.flatMap_cons, List.flatMap_nil, hocc0]
  simp only [List.cons_append, List.nil_append, List.append_nil, List.map_cons,
    List.map_nil]
  rw [hget0]

/-- C8 (amended): `gene_sz_shortname` and `gene_sz_name` are retained
only when present and their absence is tolerated, but `IDteam` is
requested unconditionally: when the team table lacks it the selection
raises the pandas `KeyError` (and the joiner propagates it), rather than
omitting the column. -/
theorem c8_team_columns (teams : Df) :
    ("IDteam" ∉ teams.columns → selectTeamCols teams = .error .missingColumn) ∧
    (teams.columns.count "IDteam" = 1 →
      teams.columns.count "gene_sz_shortname" ≤ 1 →
      teams.columns.count "gene_sz_name" ≤ 1 →
      ∃ df2, selectTeamCols teams = .ok df2 ∧
        df2.columns = ["IDteam"] ++
          (if "gene_sz_shortname" ∈ teams.columns then ["gene_sz_shortname"] else []) ++
          (if "gene_sz_name" ∈ teams.columns then ["gene_sz_name"] else [])) ∧
    (∀ (today : Date) (root : Element) (cdf : Df),
      xml_to_df root (some "DYN_cyclist") = .ok cdf →
      xml_to_df root (some "DYN_team") = .ok teams →
      "IDteam" ∉ teams.columns →
      cyclist_and_team_data today root = .error .missingColumn) := by
  have p1 : "IDteam" ∉ teams.columns → selectTeamCols teams = .error .missingColumn := by
    intro hid
    exact selectCols_err teams _ ⟨"IDteam", by simp, hid⟩
  refine ⟨p1, ?_, ?_⟩
  · intro hc1 hs1 hn1
    have hid : "IDteam" ∈ teams.columns := List.count_pos_iff.mp (by omega)
    by_cases hsh : "gene_sz_shortname" ∈ teams.columns <;>
      by_cases hnm : "gene_sz_name" ∈ teams.columns
    · have hs1' : teams.columns.count "gene_sz_shortname" = 1 := by
        have := List.count_pos_iff.mpr hsh; omega
      have hn1' : teams.columns.count "gene_sz_name" = 1 := by
        have := List.count_pos_iff.mpr hnm; omega
      obtain ⟨df2, hdf2, hcols⟩ := selectCols_three_ok teams _ _ _ hc1 hs1' hn1'
      refine ⟨df2, ?_, ?_⟩
      · unfold selectTeamCols
        have hn : (["IDteam"] ++
            (if teams.columns.contains "gene_sz_shortname" then ["gene_sz_shortname"] else []) ++
            (if teams.columns.contains "gene_sz_name" then ["gene_sz_name"] else [])) =
            ["IDteam", "gene_sz_shortname", "gene_sz_name"] := by
          simp [hsh, hnm]
        rw [hn]
        exact hdf2
      · rw [hcols, if_pos hsh, if_pos hnm]
        rfl
    · have hs1' : teams.columns.count "gene_sz_shortname" = 1 := by
        have := List.count_pos_iff.mpr hsh; omega
      obtain ⟨df2, hdf2, hcols⟩ := selectCols_two_ok teams _ _ hc1 hs1'
      refine ⟨df2, ?_, ?_⟩
      · unfold selectTeamCols
        have hn : (["IDteam"] ++
            (if teams.columns.contains "gene_sz_shortname" then ["gene_sz_shortname"] else []) ++
            (if teams.columns.contains "gene_sz_name" then ["gene_sz_name"] else [])) =
            ["IDteam", "gene_sz_shortname"] := by
          simp [hsh, hnm]
        rw [hn]
        exact hdf2
      · rw [hcols, if_pos hsh, if_neg hnm]
        rfl
    · have hn1' : teams.columns.count "gene_sz_name" = 1 := by
        have := List.count_pos_iff.mpr hnm; omega
      obtain ⟨df2, hdf2, hcols⟩ := selectCols_two_ok teams _ _ hc1 hn1'
      refine ⟨df2, ?_, ?_⟩
      · unfold selectTeamCols
        have hn : (["IDteam"] ++
            (if teams.columns.contains "gene_sz_shortname" then ["gene_sz_shortname"] else []) ++
            (if teams.columns.contains "gene_sz_name" then ["gene_sz_name"] else [])) =
            ["IDteam", "gene_sz_name"] := by
          simp [hsh, hnm]
        rw [hn]
        exact hdf2
      · rw [hcols, if_neg hsh, if_pos hnm]
        rfl
    · obtain ⟨df2, hdf2, hcols⟩ := selectCols_one_ok teams _ hc1
      refine ⟨df2, ?_, ?_⟩
      · unfold selectTeamCols
        have hn : (["IDteam"] ++
            (if teams.columns.contains "gene_sz_shortname" then ["gene_sz_shortname"] else []) ++
            (if teams.columns.contains "gene_sz_name" then ["gene_sz_name"] else [])) =
            ["IDteam"] := by
          simp [hsh, hnm]
        rw [hn]
        exact hdf2
      · rw [hcols, if_neg hsh, if_neg hnm]
        rfl
  · intro today root cdf hcyc hteam hid
    have hstep : cyclist_and_team_data today root =
        (match selectTeamCols teams with
         | .error e => .error e
         | .ok teams2 =>
           match mergeLeft cdf teams2 "fkIDteam" "IDteam" with
           | .error e => .error e
           | .ok full => addAge today full) := by
      unfold cyclist_and_team_data
      rw [hcyc, hteam]
    rw [hstep, p1 hid]

/-- Witness for C8: a team table with `IDteam` and `gene_sz_name` but no
`gene_sz_shortname` retains exactly `IDteam` and `gene_sz_name`. -/
theorem c8_team_columns_witness :
    ∃ df2, selectTeamCols ⟨["IDteam", "gene_sz_name"], [[some (.str "10"), some (.str "TeamA")]]⟩ =
      .ok df2 ∧ df2.columns = ["IDteam", "gene_sz_name"] := by
  have h := (c8_team_columns
    ⟨["IDteam", "gene_sz_name"], [[some (.str "10"), some (.str "TeamA")]]⟩).2.1
    (by decide) (by decide) (by decide)
  obtain ⟨df2, hdf2, hcols⟩ := h
  exact ⟨df2, hdf2, Eq.trans hcols (by decide)⟩

lemma selectCols_names (df : Df) (names : List String) (df2 : Df)
    (h : selectCols df names = .ok df2) : ∀ c ∈ df2.columns, c ∈ names := by
  unfold selectCols at h
  by_cases hall : names.all (fun n => df.columns.contains n) = true
  · rw [if_pos hall] at h
    injection h with h
    rw [← h]
    intro c hc
    obtain ⟨j, hj, rfl⟩ := List.mem_map.mp hc
    obtain ⟨n, hn, hjn⟩ := List.mem_flatMap.mp hj
    rw [colOccurrences_getD df.columns n j hjn]
    exact hn
  · rw [if_neg hall] at h
    cases h

lemma selectTeamCols_names (tdf teams2 : Df) (h : selectTeamCols tdf = .ok teams2) :
    ∀ c ∈ teams2.columns,
      c = "IDteam" ∨ c = "gene_sz_shortname" ∨ c = "gene_sz_name" := by
  intro c hc
  have hmem := selectCols_names tdf _ teams2 h c hc
  rcases List.mem_append.mp hmem with h' | h'
  · rcases List.mem_append.mp h' with h'' | h''
    · left; simpa using h''
    · right; left
      by_cases hb : tdf.columns.contains "gene_sz_shortname"
      · rw [if_pos hb] at h''; simpa using h''
      · rw [if_neg hb] at h''; simp at h''
  · right; right
    by_cases hb : tdf.columns.contains "gene_sz_name"
    · rw [if_pos hb] at h'; simpa using h'
    · rw [if_neg hb] at h'; simp at h'

lemma suffixLeft_id (l r : List String) (h : ∀ c ∈ l, c ∉ r) :
    suffixLeft l r = l := by
  unfold suffixLeft
  have hc : ∀ c ∈ l, (if r.contains c then c ++ "_x" else c) = c := by
    intro c hcl
    rw [if_neg (by simpa using h c hcl)]
  calc l.map (fun c => if r.contains c then c ++ "_x" else c) = l.map id :=
        List.map_congr_left hc
    _ = l := List.map_id l

lemma suffixRight_id (l r : List String) (h : ∀ c ∈ r, c ∉ l) :
    suffixRight l r = r := by
  unfold suffixRight
  have hc : ∀ c ∈ r, (if l.contains c then c ++ "_y" else c) = c := by
    intro c hcr
    rw [if_neg (by simpa using h c hcr)]
  calc r.map (fun c => if l.contains c then c ++ "_y" else c) = r.map id :=
        List.map_congr_left hc
    _ = r := List.map_id r

lemma colOccurrences_append (xs ys : List String) (n : String) :
    colOccurrences (xs ++ ys) n =
      colOccurrences xs n ++ (colOccurrences ys n).map (· + xs.length) := by
  induction xs with
  | nil => simp [colOccurrences]
  | cons c xs ih =>
    by_cases hc : c = n <;>
      simp [colOccurrences, hc, ih, List.map_map, List.map_append,
        Function.comp_def, Nat.add_assoc]

/-- C10 (amended): provided no cyclist column shares a name with a
retained team column (which pandas would rename with `_x`/`_y`
suffixes) and no cyclist column is named `age` (which the age
assignment would overwrite in place), the joiner's output columns are
the cyclist columns in extracted order, then the retained team columns,
then `age` appended last exactly when the cyclist table has a
`gene_i_birthdate` column. -/
theorem c10_column_order (today : Date) (root : Element) (cdf teams2 df : Df)
    (h1 : xml_to_df root (some "DYN_cyclist") = .ok cdf)
    (h2 : ∃ tdf, xml_to_df root (some "DYN_team") = .ok tdf ∧
      selectTeamCols tdf = .ok teams2)
    (h3 : cyclist_and_team_data today root = .ok df)
    (hdisj : ∀ c ∈ cdf.columns, c ∉ teams2.columns)
    (hage : "age" ∉ cdf.columns) :
    df.columns = cdf.columns ++ teams2.columns ++
      (if "gene_i_birthdate" ∈ cdf.columns then ["age"] else []) := by
  obtain ⟨tdf, h2a, h2b⟩ := h2
  have hteamnames := selectTeamCols_names tdf teams2 h2b
  have hbd_notin : "gene_i_birthdate" ∉ teams2.columns := by
    intro hmem
    rcases hteamnames _ hmem with h' | h' | h' <;> exact absurd h' (by decide)
  have hage_notin : "age" ∉ teams2.columns := by
    intro hmem
    rcases hteamnames _ hmem with h' | h' | h' <;> exact absurd h' (by decide)
  have hstep0 : cyclist_and_team_data today root =
      (match selectTeamCols tdf with
       | .error e => .error e
       | .ok teams2 =>
         match mergeLeft cdf teams2 "fkIDteam" "IDteam" with
         | .error e => .error e
         | .ok full => addAge today full) := by
    unfold cyclist_and_team_data
    rw [h1, h2a]
  have hstep : cyclist_and_team_data today root =
      (match mergeLeft cdf teams2 "fkIDteam" "IDteam" with
       | .error e => .error e
       | .ok full => addAge today full) := by
    rw [hstep0, h2b]
  rw [hstep] at h3
  cases hm : mergeLeft cdf teams2 "fkIDteam" "IDteam" with
  | error e => rw [hm] at h3; simp at h3
  | ok full =>
    rw [hm] at h3
    have h3' : addAge today full = .ok df := by simpa using h3
    -- the merge's output columns, with the suffixing a no-op
    have hfullcols : full.columns = cdf.columns ++ teams2.columns := by
      unfold mergeLeft at hm
      cases hli : colIndexUnique cdf.columns "fkIDteam" with
      | none => rw [hli] at hm; cases hm
      | some li =>
        cases hri : colIndexUnique teams2.columns "IDteam" with
        | none => rw [hli, hri] at hm; cases hm
        | some ri =>
          rw [hli, hri] at hm
          injection hm with hm
          rw [← hm]
          show suffixLeft cdf.columns teams2.columns ++
            suffixRight cdf.columns teams2.columns = _
          rw [suffixLeft_id _ _ hdisj,
            suffixRight_id _ _ (fun c hc hmem => hdisj c hmem hc)]
    have hoccfull : colOccurrences full.columns "gene_i_birthdate" =
        colOccurrences cdf.columns "gene_i_birthdate" := by
      rw [hfullcols, colOccurrences_append,
        (colOccurrences_nil_iff _ _).mpr hbd_notin]
      simp
    unfold addAge at h3'
    rw [hoccfull] at h3'
    cases hocc : colOccurrences cdf.columns "gene_i_birthdate" with
    | nil =>
      rw [hocc] at h3'
      injection h3' with h3'
      rw [← h3', hfullcols,
        if_neg ((colOccurrences_nil_iff _ _).mp hocc)]
      simp
    | cons bj rest =>
      have hbdmem : "gene_i_birthdate" ∈ cdf.columns := by
        by_contra hno
        rw [(colOccurrences_nil_iff _ _).mpr hno] at hocc
        cases hocc
      cases rest with
      | nil =>
        rw [hocc] at h3'
        have h3'' : Except.ok (assignColumn full "age"
            (full.rows.map (fun r => (calculate_age (r.getD bj none) today).map PyVal.int))) =
            (Except.ok df : Except Err Df) := h3'
        injection h3'' with h3''
        have hnm : "age" ∉ full.columns := by
          rw [hfullcols]
          simp [List.mem_append, hage, hage_notin]
        have hagec : full.columns.contains "age" = false := by simpa using hnm
        have hassign : (assignColumn full "age"
            (full.rows.map (fun r => (calculate_age (r.getD bj none) today).map PyVal.int))).columns =
            full.columns ++ ["age"] := by
          unfold assignColumn
          rw [if_neg (show ¬ full.columns.contains "age" = true by simpa using hnm)]
        rw [← h3'', hassign, hfullcols, if_pos hbdmem, List.append_assoc]
      | cons j2 rest2 =>
        rw [hocc] at h3'
        cases h3'

/-- Witness for C10 on a clean document: cyclist columns, then the
retained team columns, then `age` last. -/
theorem c10_column_order_witness :
    cyclist_and_team_data ⟨2026, 10, 12⟩ (doc
      [tableEl "DYN_cyclist" "1"
        [colEl "IDcyclist" [some "1"], colEl "fkIDteam" [some "10"],
         colEl "gene_i_birthdate" [some "19900101"]],
       tableEl "DYN_team" "1"
        [colEl "IDteam" [some "10"], colEl "gene_sz_name" [some "TeamA"]]]) =
      .ok ⟨["IDcyclist", "fkIDteam", "gene_i_birthdate", "IDteam", "gene_sz_name", "age"],
        [[some (.str "1"), some (.str "10"), some (.str "19900101"),
          some (.str "10"), some (.str "TeamA"), some (.int 36)]]⟩ ∧
    (["IDcyclist", "fkIDteam", "gene_i_birthdate", "IDteam", "gene_sz_name", "age"] :
        List String) =
      ["IDcyclist", "fkIDteam", "gene_i_birthdate"] ++ ["IDteam", "gene_sz_name"] ++ ["age"] :=
  ⟨by decide,
   Eq.trans (by decide)
     (Eq.trans
       (c10_column_order ⟨2026, 10, 12⟩
         (doc
           [tableEl "DYN_cyclist" "1"
             [colEl "IDcyclist" [some "1"], colEl "fkIDteam" [some "10"],
              colEl "gene_i_birthdate" [some "19900101"]],
            tableEl "DYN_team" "1"
             [colEl "IDteam" [some "10"], colEl "gene_sz_name" [some "TeamA"]]])
         ⟨["IDcyclist", "fkIDteam", "gene_i_birthdate"],
           [[some (.str "1"), some (.str "10"), some (.str "19900101")]]⟩
         ⟨["IDteam", "gene_sz_name"], [[some (.str "10"), some (.str "TeamA")]]⟩
         ⟨["IDcyclist", "fkIDteam", "gene_i_birthdate", "IDteam", "gene_sz_name", "age"],
           [[some (.str "1"), some (.str "10"), some (.str "19900101"),
             some (.str "10"), some (.str "TeamA"), some (.int 36)]]⟩
         (by decide)
         ⟨⟨["IDteam", "gene_sz_name"], [[some (.str "10"), some (.str "TeamA")]]⟩,
           by decide, by decide⟩
         (by decide) (by decide) (by decide))
       (by decide))⟩

lemma map_getD {α β : Type} (l : List α) (f : α → β) (i : Nat) (hi : i < l.length)
    (da : α) (db : β) : (l.map f).getD i db = f (l.getD i da) := by
  rw [List.getD_eq_getElem?_getD, List.getElem?_map, List.getElem?_eq_getElem hi,
    List.getD_eq_getElem?_getD, List.getElem?_eq_getElem hi]
  rfl

lemma flatMap_eq_map_headD {α β : Type} (l : List α) (f : α → List β) (d : β)
    (h : ∀ a ∈ l, ∃ b, f a = [b]) :
    l.flatMap f = l.map (fun a => (f a).headD d) := by
  induction l with
  | nil => rfl
  | cons a l ih =>
    obtain ⟨b, hb⟩ := h a (List.mem_cons_self a l)
    rw [List.flatMap_cons, hb, List.map_cons, hb,
      ih (fun x hx => h x (List.mem_cons_of_mem _ hx))]
    rfl

lemma zip_map_self {α β γ : Type} (l : List α) (f : α → β) (F : α × β → γ) :
    (l.zip (l.map f)).map F = l.map (fun a => F (a, f a)) := by
  induction l with
  | nil => rfl
  | cons a l ih => simp [ih]

lemma buildDf_row_len (cs : List (String × List Cell)) :
    ∀ r ∈ (buildDf cs).rows, r.length = (buildDf cs).columns.length := by
  intro r hr
  by_cases h : cs.isEmpty = true
  · unfold buildDf at hr
    rw [if_pos h] at hr
    simp at hr
  · have h' : cs.isEmpty = false := by
      cases e : cs.isEmpty
      · rfl
      · exact absurd e h
    have hb : buildDf cs =
        ⟨cs.map Prod.fst,
          (List.range (maxLen cs)).map (fun i =>
            (cs.map (fun c => c.2 ++ List.replicate (maxLen cs - c.2.length) (none : Cell))).map
              (fun col => col.getD i none))⟩ := by
      simp [buildDf, h']
    rw [hb] at hr ⊢
    obtain ⟨i, _, rfl⟩ := List.mem_map.mp hr
    simp

lemma xml_to_df_ok (root : Element) (tn : Option String) (df : Df)
    (h : xml_to_df root tn = .ok df) :
    ∃ t, selectTable root tn = .ok t ∧ df = buildDf (extractCols t) := by
  unfold xml_to_df at h
  cases hs : selectTable root tn with
  | error e => rw [hs] at h; cases h
  | ok t => rw [hs] at h; injection h with h; exact ⟨t, rfl, h.symm⟩

lemma xml_to_df_row_length (root : Element) (tn : Option String) (df : Df)
    (h : xml_to_df root tn = .ok df) :
    ∀ r ∈ df.rows, r.length = df.columns.length := by
  obtain ⟨t, _, rfl⟩ := xml_to_df_ok root tn df h
  exact buildDf_row_len _

/-- C1 (amended): provided no cyclist key value matches more than one
team row, the joiner's output has exactly one row per cyclist row (in
particular for an empty team table), and an unmatched cyclist row's
team fields are all null.  (When several team rows share a matched
`IDteam`, the pandas merge instead repeats the cyclist row once per
match — see the counterexample.) -/
theorem c1_left_join_cardinality (today : Date) (root : Element)
    (cdf teams2 df : Df) (li ri : Nat)
    (h1 : xml_to_df root (some "DYN_cyclist") = .ok cdf)
    (h2 : ∃ tdf, xml_to_df root (some "DYN_team") = .ok tdf ∧
      selectTeamCols tdf = .ok teams2)
    (hli : colIndexUnique cdf.columns "fkIDteam" = some li)
    (hri : colIndexUnique teams2.columns "IDteam" = some ri)
    (huniq : ∀ lr ∈ cdf.rows, (matchingRows teams2 ri li lr).length ≤ 1)
    (h3 : cyclist_and_team_data today root = .ok df) :
    df.rows.length = cdf.rows.length ∧
    ∀ i < cdf.rows.length,
      matchingRows teams2 ri li (cdf.rows.getD i []) = [] →
      ∀ k < teams2.columns.length,
        (df.rows.getD i []).getD (cdf.columns.length + k) none = none := by
  obtain ⟨tdf, h2a, h2b⟩ := h2
  have hcdf_rows := xml_to_df_row_length _ _ _ h1
  have hteamnames := selectTeamCols_names tdf teams2 h2b
  have hstep0 : cyclist_and_team_data today root =
      (match selectTeamCols tdf with
       | .error e => .error e
       | .ok teams2 =>
         match mergeLeft cdf teams2 "fkIDteam" "IDteam" with
         | .error e => .error e
         | .ok full => addAge today full) := by
    unfold cyclist_and_team_data
    rw [h1, h2a]
  have hstep : cyclist_and_team_data today root =
      (match mergeLeft cdf teams2 "fkIDteam" "IDteam" with
       | .error e => .error e
       | .ok full => addAge today full) := by
    rw [hstep0, h2b]
  rw [hstep] at h3
  have hm : mergeLeft cdf teams2 "fkIDteam" "IDteam" =
      .ok ⟨suffixLeft cdf.columns teams2.columns ++ suffixRight cdf.columns teams2.columns,
        cdf.rows.flatMap (joinRow teams2 ri li)⟩ := by
    unfold mergeLeft
    rw [hli, hri]
  cases hfull : mergeLeft cdf teams2 "fkIDteam" "IDteam" with
  | error e => rw [hfull] at hm; cases hm
  | ok full =>
    rw [hfull] at h3 hm
    injection hm with hm
    have hfc : full.columns =
        suffixLeft cdf.columns teams2.columns ++ suffixRight cdf.columns teams2.columns := by
      rw [hm]
    have hfr : full.rows = cdf.rows.flatMap (joinRow teams2 ri li) := by
      rw [hm]
    have h3' : addAge today full = .ok df := by simpa using h3
    -- every left row contributes exactly one output row
    have hsingle : ∀ lr ∈ cdf.rows, ∃ b, joinRow teams2 ri li lr = [b] := by
      intro lr hlr
      cases hms : matchingRows teams2 ri li lr with
      | nil =>
        exact ⟨lr ++ List.replicate teams2.columns.length (none : Cell),
          by unfold joinRow; rw [hms]⟩
      | cons rr rest =>
        have hlen := huniq lr hlr
        rw [hms] at hlen
        cases rest with
        | nil => exact ⟨lr ++ rr, by unfold joinRow; simp [hms]⟩
        | cons rr2 rest2 => simp at hlen
    have hflat : cdf.rows.flatMap (joinRow teams2 ri li) =
        cdf.rows.map (fun lr => (joinRow teams2 ri li lr).headD []) :=
      flatMap_eq_map_headD _ _ [] hsingle
    have hfull_len : full.rows.length = cdf.rows.length := by
      rw [hfr, hflat, List.length_map]
    -- description of the merged row at an unmatched index
    have hrow_at : ∀ i < cdf.rows.length,
        matchingRows teams2 ri li (cdf.rows.getD i []) = [] →
        full.rows.getD i [] =
          cdf.rows.getD i [] ++ List.replicate teams2.columns.length (none : Cell) := by
      intro i hi hum
      rw [hfr, hflat, map_getD _ _ i hi []]
      unfold joinRow
      rw [hum]
      simp
    have hlr_len : ∀ i < cdf.rows.length,
        (cdf.rows.getD i []).length = cdf.columns.length := by
      intro i hi
      refine hcdf_rows _ ?_
      rw [List.getD_eq_getElem?_getD, List.getElem?_eq_getElem hi]
      exact List.getElem_mem hi
    have hpad : ∀ i < cdf.rows.length,
        matchingRows teams2 ri li (cdf.rows.getD i []) = [] →
        ∀ k < teams2.columns.length,
        (full.rows.getD i []).getD (cdf.columns.length + k) none = none := by
      intro i hi hum k hk
      rw [hrow_at i hi hum, List.getD_eq_getElem?_getD, List.getElem?_append,
        if_neg (by rw [hlr_len i hi]; omega)]
      rw [hlr_len i hi, Nat.add_sub_cancel_left, List.getElem?_replicate, if_pos hk]
      rfl
    have hfull_row_len : ∀ i < cdf.rows.length,
        matchingRows teams2 ri li (cdf.rows.getD i []) = [] →
        (full.rows.getD i []).length =
          cdf.columns.length + teams2.columns.length := by
      intro i hi hum
      rw [hrow_at i hi hum, List.length_append, List.length_replicate, hlr_len i hi]
    -- the team-region column labels are never "age"
    have hname : ∀ k < teams2.columns.length,
        full.columns.getD (cdf.columns.length + k) "" ≠ "age" := by
      intro k hk
      have hsl : (suffixLeft cdf.columns teams2.columns).length = cdf.columns.length := by
        simp [suffixLeft]
      have hentry : full.columns.getD (cdf.columns.length + k) "" =
          (if cdf.columns.contains (teams2.columns.getD k "") then
            teams2.columns.getD k "" ++ "_y"
          else teams2.columns.getD k "") := by
        rw [hfc, List.getD_eq_getElem?_getD, List.getElem?_append,
          if_neg (by rw [hsl]; omega), hsl, Nat.add_sub_cancel_left]
        rw [show suffixRight cdf.columns teams2.columns =
          teams2.columns.map (fun c => if cdf.columns.contains c then c ++ "_y" else c)
          from rfl]
        rw [List.getElem?_map, List.getElem?_eq_getElem hk]
        rw [show teams2.columns[k] = teams2.columns.getD k "" from by
          simp [List.getD_eq_getElem?_getD, List.getElem?_eq_getElem hk]]
        rfl
      have hnm3 := hteamnames (teams2.columns.getD k "") (by
        rw [List.getD_eq_getElem?_getD, List.getElem?_eq_getElem hk]
        exact List.getElem_mem hk)
      rw [hentry]
      by_cases hct : cdf.columns.contains (teams2.columns.getD k "") = true
      · rw [if_pos hct]
        rcases hnm3 with h' | h' | h' <;> rw [h'] <;> decide
      · rw [if_neg hct]
        rcases hnm3 with h' | h' | h' <;> rw [h'] <;> decide
    -- case analysis on the birthdate column of the merged frame
    unfold addAge at h3'
    cases hocc : colOccurrences full.columns "gene_i_birthdate" with
    | nil =>
      rw [hocc] at h3'
      have h3'' : Except.ok full = (Except.ok df : Except Err Df) := h3'
      injection h3'' with h3''
      rw [← h3'']
      exact ⟨hfull_len, fun i hi hum k hk => hpad i hi hum k hk⟩
    | cons bj rest =>
      cases rest with
      | cons j2 rest2 =>
        rw [hocc] at h3'
        have : (Except.error Err.birthdateAmbiguous : Except Err Df) = .ok df := h3'
        cases this
      | nil =>
        rw [hocc] at h3'
        have h3'' : Except.ok (assignColumn full "age"
            (full.rows.map (fun r => (calculate_age (r.getD bj none) today).map PyVal.int))) =
            (Except.ok df : Except Err Df) := h3'
        injection h3'' with h3''
        rw [← h3'']
        by_cases hagec : full.columns.contains "age" = true
        · -- an existing "age" column is overwritten in place
          have hassign : assignColumn full "age"
              (full.rows.map (fun r => (calculate_age (r.getD bj none) today).map PyVal.int)) =
              ⟨full.columns,
                (full.rows.zip
                  (full.rows.map (fun r => (calculate_age (r.getD bj none) today).map PyVal.int))).map
                  (fun rv => (List.range rv.1.length).map
                    (fun j => if full.columns.getD j "" = "age" then rv.2 else rv.1.getD j none))⟩ := by
            unfold assignColumn
            rw [if_pos hagec]
          rw [hassign, zip_map_self]
          constructor
          · simp [hfull_len]
          · intro i hi hum k hk
            have hilen : i < full.rows.length := by rw [hfull_len]; exact hi
            rw [show (⟨full.columns, full.rows.map fun r =>
                (List.range r.length).map (fun j =>
                  if full.columns.getD j "" = "age"
                  then (calculate_age (r.getD bj none) today).map PyVal.int
                  else r.getD j none)⟩ : Df).rows = full.rows.map fun r =>
                (List.range r.length).map (fun j =>
                  if full.columns.getD j "" = "age"
                  then (calculate_age (r.getD bj none) today).map PyVal.int
                  else r.getD j none) from rfl]
            rw [map_getD _ _ i hilen []]
            have hrl := hfull_row_len i hi hum
            have hjlt : cdf.columns.length + k < (full.rows.getD i []).length := by omega
            rw [map_getD _ _ (cdf.columns.length + k) (by simpa using hjlt) 0]
            have hrange : (List.range (full.rows.getD i []).length).getD
                (cdf.columns.length + k) 0 = cdf.columns.length + k := by
              rw [List.getD_eq_getElem?_getD, List.getElem?_range (by simpa using hjlt)]
              rfl
            rw [hrange, if_neg (hname k hk)]
            exact hpad i hi hum k hk
        · -- no "age" column: the derived ages are appended at the end
          have hassign : assignColumn full "age"
              (full.rows.map (fun r => (calculate_age (r.getD bj none) today).map PyVal.int)) =
              ⟨full.columns ++ ["age"],
                (full.rows.zip
                  (full.rows.map (fun r => (calculate_age (r.getD bj none) today).map PyVal.int))).map
                  (fun rv => rv.1 ++ [rv.2])⟩ := by
            unfold assignColumn
            rw [if_neg hagec]
          rw [hassign, zip_map_self]
          constructor
          · simp [hfull_len]
          · intro i hi hum k hk
            have hilen : i < full.rows.length := by rw [hfull_len]; exact hi
            rw [show (⟨full.columns ++ ["age"], full.rows.map fun r =>
                r ++ [(calculate_age (r.getD bj none) today).map PyVal.int]⟩ : Df).rows =
                full.rows.map fun r =>
                  r ++ [(calculate_age (r.getD bj none) today).map PyVal.int] from rfl]
            rw [map_getD _ _ i hilen []]
            have hrl := hfull_row_len i hi hum
            rw [List.getD_eq_getElem?_getD, List.getElem?_append, if_pos (by omega)]
            rw [← List.getD_eq_getElem?_getD]
            exact hpad i hi hum k hk

/-- Witness for C1: two cyclists, an empty team table (present, with an
`IDteam` column but zero rows): the output keeps both cyclist rows and
their team field is null. -/
theorem c1_left_join_cardinality_witness :
    (⟨["IDcyclist", "fkIDteam", "IDteam"],
      [[some (.str "1"), some (.str "10"), none],
       [some (.str "2"), some (.str "99"), none]]⟩ : Df).rows.length =
      (⟨["IDcyclist", "fkIDteam"],
        [[some (.str "1"), some (.str "10")],
         [some (.str "2"), some (.str "99")]]⟩ : Df).rows.length ∧
    ((⟨["IDcyclist", "fkIDteam", "IDteam"],
      [[some (.str "1"), some (.str "10"), none],
       [some (.str "2"), some (.str "99"), none]]⟩ : Df).rows.getD 0 []).getD (2 + 0) none =
      none := by
  have h := c1_left_join_cardinality ⟨2026, 10, 12⟩
    (doc [tableEl "DYN_cyclist" "2"
      [colEl "IDcyclist" [some "1", some "2"],
       colEl "fkIDteam" [some "10", some "99"]],
      tableEl "DYN_team" "0" [colEl "IDteam" []]])
    ⟨["IDcyclist", "fkIDteam"],
      [[some (.str "1"), some (.str "10")], [some (.str "2"), some (.str "99")]]⟩
    ⟨["IDteam"], []⟩
    ⟨["IDcyclist", "fkIDteam", "IDteam"],
      [[some (.str "1"), some (.str "10"), none],
       [some (.str "2"), some (.str "99"), none]]⟩
    1 0
    (by decide)
    ⟨⟨["IDteam"], []⟩, by decide, by decide⟩
    (by decide) (by decide) (by decide) (by decide)
  exact ⟨h.1, h.2 0 (by decide) (by decide) 0 (by decide)⟩

lemma digitChar_isDigit (k : Nat) (h : k < 10) : (Nat.digitChar k).isDigit = true := by
  interval_cases k <;> decide

lemma charVal_digitChar (k : Nat) (h : k < 10) : charVal (Nat.digitChar k) = k := by
  interval_cases k <;> decide

lemma digitChar_not_ws (k : Nat) (h : k < 10) : isPyWs (Nat.digitChar k) = false := by
  interval_cases k <;> decide

lemma digitChar_ne_underscore (k : Nat) (h : k < 10) : Nat.digitChar k ≠ '_' := by
  interval_cases k <;> decide

lemma digitChar_ne_minus (k : Nat) (h : k < 10) : Nat.digitChar k ≠ '-' := by
  interval_cases k <;> decide

lemma digitChar_ne_plus (k : Nat) (h : k < 10) : Nat.digitChar k ≠ '+' := by
  interval_cases k <;> decide

lemma goDigits_step (acc : Nat) (c : Char) (cs : List Char)
    (h1 : c ≠ '_') (h2 : c.isDigit = true) :
    goDigits acc (c :: cs) = goDigits (acc * 10 + charVal c) cs := by
  rw [goDigits.eq_def]
  change (if c = '_' then _
    else if c.isDigit then goDigits (acc * 10 + charVal c) cs else none) = _
  rw [if_neg h1, if_pos h2]

lemma pyParseInt_cons_digit (c : Char) (cs : List Char)
    (hstrip : stripWs (c :: cs) = c :: cs)
    (h1 : c ≠ '-') (h2 : c ≠ '+') (h3 : c.isDigit = true) :
    pyParseInt ⟨c :: cs⟩ = (goDigits (charVal c) cs).map (fun v => (v : Int)) := by
  unfold pyParseInt
  rw [show (⟨c :: cs⟩ : String).data = c :: cs from rfl, hstrip]
  change (if c = '-' then _ else if c = '+' then _
    else if c.isDigit then (goDigits (charVal c) cs).map (fun v => (v : Int)) else none) = _
  rw [if_neg h1, if_neg h2, if_pos h3]

lemma pyParseInt_eight (k1 k2 k3 k4 k5 k6 k7 k8 : Nat)
    (h1 : k1 < 10) (h2 : k2 < 10) (h3 : k3 < 10) (h4 : k4 < 10)
    (h5 : k5 < 10) (h6 : k6 < 10) (h7 : k7 < 10) (h8 : k8 < 10) :
    pyParseInt ⟨[Nat.digitChar k1, Nat.digitChar k2, Nat.digitChar k3, Nat.digitChar k4,
      Nat.digitChar k5, Nat.digitChar k6, Nat.digitChar k7, Nat.digitChar k8]⟩ =
      some (((((((((k1 * 10 + k2) * 10 + k3) * 10 + k4) * 10 + k5) * 10 + k6) * 10 + k7)
        * 10 + k8 : Nat) : Int)) := by
  have hstrip : stripWs [Nat.digitChar k1, Nat.digitChar k2, Nat.digitChar k3,
      Nat.digitChar k4, Nat.digitChar k5, Nat.digitChar k6, Nat.digitChar k7,
      Nat.digitChar k8] =
      [Nat.digitChar k1, Nat.digitChar k2, Nat.digitChar k3, Nat.digitChar k4,
       Nat.digitChar k5, Nat.digitChar k6, Nat.digitChar k7, Nat.digitChar k8] := by
    unfold stripWs
    rw [List.dropWhile_cons, if_neg (by simp [digitChar_not_ws k1 h1])]
    rw [show ([Nat.digitChar k1, Nat.digitChar k2, Nat.digitChar k3, Nat.digitChar k4,
      Nat.digitChar k5, Nat.digitChar k6, Nat.digitChar k7, Nat.digitChar k8]).reverse =
      [Nat.digitChar k8, Nat.digitChar k7, Nat.digitChar k6, Nat.digitChar k5,
       Nat.digitChar k4, Nat.digitChar k3, Nat.digitChar k2, Nat.digitChar k1] from rfl]
    rw [List.dropWhile_cons, if_neg (by simp [digitChar_not_ws k8 h8])]
    rfl
  rw [pyParseInt_cons_digit _ _ hstrip (digitChar_ne_minus k1 h1)
    (digitChar_ne_plus k1 h1) (digitChar_isDigit k1 h1)]
  rw [goDigits_step _ _ _ (digitChar_ne_underscore k2 h2) (digitChar_isDigit k2 h2),
    goDigits_step _ _ _ (digitChar_ne_underscore k3 h3) (digitChar_isDigit k3 h3),
    goDigits_step _ _ _ (digitChar_ne_underscore k4 h4) (digitChar_isDigit k4 h4),
    goDigits_step _ _ _ (digitChar_ne_underscore k5 h5) (digitChar_isDigit k5 h5),
    goDigits_step _ _ _ (digitChar_ne_underscore k6 h6) (digitChar_isDigit k6 h6),
    goDigits_step _ _ _ (digitChar_ne_underscore k7 h7) (digitChar_isDigit k7 h7),
    goDigits_step _ _ _ (digitChar_ne_underscore k8 h8) (digitChar_isDigit k8 h8)]
  simp only [charVal_digitChar k1 h1, charVal_digitChar k2 h2, charVal_digitChar k3 h3,
    charVal_digitChar k4 h4, charVal_digitChar k5 h5, charVal_digitChar k6 h6,
    charVal_digitChar k7 h7, charVal_digitChar k8 h8]
  rfl

lemma daysInMonth_le (y m : Nat) : daysInMonth y m ≤ 31 := by
  simp only [daysInMonth]
  split_ifs <;> omega

lemma pyParseInt_dateString (y m d : Nat)
    (hy1 : 1000 ≤ y) (hy2 : y ≤ 9999) (hm2 : m ≤ 12) (hd2 : d ≤ 31) :
    pyParseInt (dateString y m d) = some ((y * 10000 + m * 100 + d : Nat) : Int) := by
  have h := pyParseInt_eight (y / 1000) (y / 100 % 10) (y / 10 % 10) (y % 10)
    (m / 10) (m % 10) (d / 10) (d % 10)
    (by omega) (by omega) (by omega) (by omega)
    (by omega) (by omega) (by omega) (by omega)
  rw [show dateString y m d =
    ⟨[Nat.digitChar (y / 1000), Nat.digitChar (y / 100 % 10), Nat.digitChar (y / 10 % 10),
      Nat.digitChar (y % 10), Nat.digitChar (m / 10), Nat.digitChar (m % 10),
      Nat.digitChar (d / 10), Nat.digitChar (d % 10)]⟩ from rfl, h]
  refine congrArg (fun n : Nat => some ((n : Int))) ?_
  omega

lemma digitsRevAux_eq_digits (fuel : Nat) : ∀ n ≤ fuel, digitsRevAux fuel n = Nat.digits 10 n := by
  induction fuel with
  | zero =>
    intro n hn
    have : n = 0 := by omega
    subst this
    simp [digitsRevAux]
  | succ fuel ih =>
    intro n hn
    by_cases hz : n = 0
    · subst hz
      simp [digitsRevAux]
    · show (if n = 0 then [] else n % 10 :: digitsRevAux fuel (n / 10)) = _
      rw [if_neg hz, ih (n / 10) (by omega),
        Nat.digits_def' (by norm_num : (1 : Nat) < 10) (Nat.pos_of_ne_zero hz)]

lemma pyStrNat_dateString (y m d : Nat)
    (hy1 : 1000 ≤ y) (hy2 : y ≤ 9999) (hm1 : 1 ≤ m) (hm2 : m ≤ 12)
    (hd1 : 1 ≤ d) (hd2 : d ≤ 31) :
    pyStrNat (y * 10000 + m * 100 + d) = dateString y m d := by
  have hn0 : y * 10000 + m * 100 + d ≠ 0 := by omega
  unfold pyStrNat
  rw [if_neg hn0, digitsRevAux_eq_digits _ _ (le_refl _)]
  have hofd : Nat.ofDigits 10 [d % 10, d / 10, m % 10, m / 10, y % 10, y / 10 % 10,
      y / 100 % 10, y / 1000] = y * 10000 + m * 100 + d := by
    simp [Nat.ofDigits_cons, Nat.ofDigits_nil]
    omega
  have hL : Nat.digits 10 (y * 10000 + m * 100 + d) =
      [d % 10, d / 10, m % 10, m / 10, y % 10, y / 10 % 10, y / 100 % 10, y / 1000] := by
    rw [← hofd]
    refine Nat.digits_ofDigits 10 (by norm_num) _ ?_ ?_
    · intro l hl
      simp only [List.mem_cons, List.not_mem_nil, or_false] at hl
      rcases hl with rfl | rfl | rfl | rfl | rfl | rfl | rfl | rfl <;> omega
    · intro hne
      have hlast : ([d % 10, d / 10, m % 10, m / 10, y % 10, y / 10 % 10, y / 100 % 10,
          y / 1000].getLast hne) = y / 1000 := rfl
      rw [hlast]
      omega
  rw [hL]
  rw [show ([d % 10, d / 10, m % 10, m / 10, y % 10, y / 10 % 10, y / 100 % 10,
    y / 1000]).reverse = [y / 1000, y / 100 % 10, y / 10 % 10, y % 10, m / 10, m % 10,
    d / 10, d % 10] from rfl]
  rfl

lemma monthTwo_digits (m : Nat) (h1 : 1 ≤ m) (h2 : m ≤ 12) :
    monthTwo (Nat.digitChar (m / 10)) (Nat.digitChar (m % 10)) = some m := by
  interval_cases m <;> decide

lemma dayTwo_digits (d : Nat) (h1 : 1 ≤ d) (h2 : d ≤ 31) :
    dayTwo (Nat.digitChar (d / 10)) (Nat.digitChar (d % 10)) = some d := by
  interval_cases d <;> decide

lemma strptimeYmd_dateString (y m d : Nat)
    (hy1 : 1000 ≤ y) (hy2 : y ≤ 9999) (hm1 : 1 ≤ m) (hm2 : m ≤ 12)
    (hd1 : 1 ≤ d) (hd2 : d ≤ daysInMonth y m) :
    strptimeYmd (dateString y m d) = some (y, m, d) := by
  have hd31 : d ≤ 31 := le_trans hd2 (daysInMonth_le y m)
  have hmd : matchMD [Nat.digitChar (m / 10), Nat.digitChar (m % 10),
      Nat.digitChar (d / 10), Nat.digitChar (d % 10)] = some (m, d) := by
    show (monthTwo (Nat.digitChar (m / 10)) (Nat.digitChar (m % 10))).bind _ = _
    rw [monthTwo_digits m hm1 hm2]
    show (dayTwo (Nat.digitChar (d / 10)) (Nat.digitChar (d % 10))).map _ = _
    rw [dayTwo_digits d hd1 hd31]
    rfl
  have c1 : y / 1000 < 10 := by omega
  have c2 : y / 100 % 10 < 10 := by omega
  have c3 : y / 10 % 10 < 10 := by omega
  have c4 : y % 10 < 10 := by omega
  have hY : y / 1000 * 1000 + y / 100 % 10 * 100 + y / 10 % 10 * 10 + y % 10 = y := by
    omega
  have hy1' : 1 ≤ y := by omega
  unfold strptimeYmd
  rw [show (dateString y m d).data =
    [Nat.digitChar (y / 1000), Nat.digitChar (y / 100 % 10), Nat.digitChar (y / 10 % 10),
     Nat.digitChar (y % 10), Nat.digitChar (m / 10), Nat.digitChar (m % 10),
     Nat.digitChar (d / 10), Nat.digitChar (d % 10)] from rfl]
  simp [hmd, digitChar_isDigit _ c1, digitChar_isDigit _ c2, digitChar_isDigit _ c3,
    digitChar_isDigit _ c4, charVal_digitChar _ c1, charVal_digitChar _ c2,
    charVal_digitChar _ c3, charVal_digitChar _ c4, hY, hy1', hd1, hd2]

/-- C7 (amended): for every 8-digit `YYYYMMDD` string encoding a valid
calendar date whose year is at least 1000 (equivalently, whose first
digit is not `0`), `calculate_age` returns the claimed
current-year-minus-birth-year value, decremented by one exactly when
the current (month, day) is lexicographically before the birth
(month, day).  (Years below 1000 lose their leading zero in
`str(int(...))` and are reparsed as a different date — see the
counterexample.) -/
theorem c7_age_formula (y m d : Nat) (today : Date)
    (hy1 : 1000 ≤ y) (hy2 : y ≤ 9999) (hm1 : 1 ≤ m) (hm2 : m ≤ 12)
    (hd1 : 1 ≤ d) (hd2 : d ≤ daysInMonth y m) :
    calculate_age (some (.str (dateString y m d))) today =
      some ((today.year : Int) - (y : Int) -
        (if today.month < m ∨ (today.month = m ∧ today.day < d) then 1 else 0)) := by
  have hd31 : d ≤ 31 := le_trans hd2 (daysInMonth_le y m)
  have hparse := pyParseInt_dateString y m d hy1 hy2 hm2 hd31
  have hpy : pyStr ((y * 10000 + m * 100 + d : Nat) : Int) = dateString y m d := by
    unfold pyStr
    rw [if_neg (by omega), Int.natAbs_ofNat]
    exact pyStrNat_dateString y m d hy1 hy2 hm1 hm2 hd1 hd31
  unfold calculate_age
  simp only [hparse]
  rw [hpy, strptimeYmd_dateString y m d hy1 hy2 hm1 hm2 hd1 hd2]

/-- Witness for C7: a birthdate 1990-03-17 gives age 36 on 2026-10-12;
an anniversary reached exactly today gives the full 30 years, and one
reached tomorrow gives 29. -/
theorem c7_age_formula_witness :
    calculate_age (some (.str (dateString 1990 3 17))) ⟨2026, 10, 12⟩ = some 36 ∧
    calculate_age (some (.str (dateString 1996 10 12))) ⟨2026, 10, 12⟩ = some 30 ∧
    calculate_age (some (.str (dateString 1996 10 13))) ⟨2026, 10, 12⟩ = some 29 :=
  ⟨Eq.trans (c7_age_formula 1990 3 17 ⟨2026, 10, 12⟩ (by decide) (by decide) (by decide)
      (by decide) (by decide) (by decide)) (by decide),
   Eq.trans (c7_age_formula 1996 10 12 ⟨2026, 10, 12⟩ (by decide) (by decide) (by decide)
      (by decide) (by decide) (by decide)) (by decide),
   Eq.trans (c7_age_formula 1996 10 13 ⟨2026, 10, 12⟩ (by decide) (by decide) (by decide)
      (by decide) (by decide) (by decide)) (by decide)⟩

-- the end-to-end scenario of spec section 8, evaluated on 2026-10-12
example :
    cyclist_and_team_data ⟨2026, 10, 12⟩ (doc
      [tableEl "DYN_cyclist" "2"
        [colEl "IDcyclist" [some "1", some "2"],
         colEl "fkIDteam" [some "10", some "99"],
         colEl "gene_i_birthdate" [some "19900101", none]],
       tableEl "DYN_team" "1"
        [colEl "IDteam" [some "10"],
         colEl "gene_sz_name" [some "TeamA"]]]) =
    .ok ⟨["IDcyclist", "fkIDteam", "gene_i_birthdate", "IDteam", "gene_sz_name", "age"],
      [[some (.str "1"), some (.str "10"), some (.str "19900101"),
        some (.str "10"), some (.str "TeamA"), some (.int 36)],
       [some (.str "2"), some (.str "99"), none, none, none, none]]⟩ := by decide

end PCM
